import Mathlib

/-
Shallow embedding of HFQR/ipc-watcher (Rust).

Source files embedded:
  src/src/tick.rs    : the one-byte version counter with a closed flag.
  src/src/shared.rs  : layout handle built over a raw shared memory region.
  src/src/lib.rs     : the public Watched (publisher) and Watcher (observer) API.

Machine bytes (u8) are modelled as Nat with explicit reduction mod 256 where
the Rust arithmetic wraps (fetch_add on AtomicU8). Fallible operations
(an unwrap that can panic) are modelled with Option, none meaning the panic.
The external reader-writer lock and the OS shared-memory mapping are black
boxes per the spec; writes and reads of the payload are therefore modelled as
atomic state transitions on an explicit shared-state record.
-/

namespace IpcWatcher

/- lib.rs line 37 and tick.rs line 11: const TICK: u8 = 1 << 1. -/
def TICK : Nat := 2

/- tick.rs line 24: tick() does fetch_add(TICK) on the byte, wrapping u8. -/
def Tick.tick (b : Nat) : Nat := (b + TICK) % 256

/- tick.rs line 28: store(val) overwrites the byte. -/
def Tick.store (v : Nat) : Nat := v % 256

/- tick.rs lines 36-43: try_get loads the byte, returns none when bit 0 is
set, otherwise the full byte value. -/
def Tick.try_get (b : Nat) : Option Nat :=
  if b % 2 = 1 then none else some b

/- tick.rs lines 31-34: close() is try_get().unwrap() followed by
store(val | 1); the unwrap panics (none here) when already closed. -/
def Tick.close (b : Nat) : Option Nat :=
  (Tick.try_get b).map (fun v => v ||| 1)

/- Sizes on the 64 bit host the crate targets. -/
def ptr_size : Nat := 8

/- mem::size_of::<AtomicU8>() = 1, used by lib.rs lines 49 and 103. -/
def size_of_AtomicU8 : Nat := 1

/- tick.rs line 8: Tick is repr(transparent) over a mutable reference to
AtomicU8, so mem::size_of::<Tick>() is the size of a reference. -/
def size_of_TickStruct : Nat := ptr_size

/- shared.rs lines 8-12: Shared holds a Tick (a reference, 8 bytes), a boxed
dyn lock handle (a fat pointer, 16 bytes) and a zero sized PhantomData, so
mem::size_of::<Shared<T>>() = 24 for every payload type T. -/
def size_of_SharedStruct : Nat := ptr_size + 2 * ptr_size

/- tick.rs lines 16-21: from_ptr returns mem::size_of::<Tick>() as the
offset to add past the tick byte. -/
def Tick.from_ptr_offset : Nat := size_of_TickStruct

/- lib.rs lines 49-51: Watched::new_in_shared advances the pointer by
mem::size_of::<AtomicU8>() past the tick. -/
def watched_tick_offset : Nat := size_of_AtomicU8

/- lib.rs lines 103-105: Watcher::new_in_shared advances the pointer by
mem::size_of::<AtomicU8>() past the tick. -/
def watcher_tick_offset : Nat := size_of_AtomicU8

/- shared.rs lines 40-46: the only capacity validation in the crate. It
asserts mem::size_of::<Shared<T>>() <= mem.len(); true means construction
proceeds, false means the assert fires. Note the compared size is that of
the Shared handle struct itself, independent of sizeof(T) and of the lock
metadata size. -/
def Shared.from_mem_size_check (mem_size : Nat) : Bool :=
  decide (size_of_SharedStruct ≤ mem_size)

/- lib.rs lines 40-65: Watched::new_in_shared performs no capacity check at
all before carving up the region. -/
def Watched.new_size_check (_mem_size : Nat) : Bool := true

/- The region size the spec requires: 1 tick byte, the lock metadata, then
the payload bytes. -/
def required_size (lock_meta payload : Nat) : Nat := 1 + lock_meta + payload

/- The shared region as the two locations the protocol touches: the tick
byte at offset 0 and the payload value guarded by the lock. The lock itself
is an assumed-correct external collaborator, so lock acquire and release do
not appear as state. -/
structure SharedMem (T : Type) where
  tick : Nat
  payload : T
deriving DecidableEq

/- The private state of a Watcher: lib.rs line 88, the cached tick byte,
initialised to 0 at line 113. -/
structure WatcherSt where
  cached : Nat
deriving DecidableEq

/- lib.rs lines 40-65: Watched::new_in_shared stores 0 into the shared tick
byte (line 54) and initialises the lock; the payload bytes are untouched. -/
def Watched.new_in_shared {T : Type} (s : SharedMem T) : SharedMem T :=
  { s with tick := Tick.store 0 }

/- lib.rs lines 67-76: write takes the exclusive lock, overwrites the
payload with the value (transmute is byte identity), then fetch_add(TICK)
on the shared tick byte. -/
def Watched.write {T : Type} (s : SharedMem T) (v : T) : SharedMem T :=
  { tick := (s.tick + TICK) % 256, payload := v }

/- lib.rs lines 30-34: Watched has no Drop implementation and its fields
(a reference, a Box of the external lock handle, PhantomData) touch neither
the tick byte nor the payload when dropped, so destruction leaves the
shared region unchanged. -/
def Watched.drop {T : Type} (s : SharedMem T) : SharedMem T := s

/- lib.rs lines 95-118: Watcher::new_in_shared attaches to the existing
region without writing to it, caching tick = 0. -/
def Watcher.new_in_shared : WatcherSt := { cached := 0 }

/- lib.rs lines 120-128: read takes the shared lock, passes a reference to
the payload into the closure and returns the closure result; neither the
cached byte nor the shared region is written. -/
def Watcher.read {T O : Type} (s : SharedMem T) (w : WatcherSt) (f : T → O) :
    O × SharedMem T × WatcherSt :=
  (f s.payload, s, w)

/- lib.rs lines 130-138: has_changed loads the shared tick byte, compares it
to the cached byte, updates the cache and returns true when they differ,
otherwise returns false. The shared region is never written. -/
def Watcher.has_changed {T : Type} (s : SharedMem T) (w : WatcherSt) :
    Bool × SharedMem T × WatcherSt :=
  if s.tick ≠ w.cached then (true, s, { cached := s.tick })
  else (false, s, w)

/- Modelled from the spec (section 4.1): observe() returns the version bits
when the closed bit is clear, and the gone condition (none) otherwise. Used
only to compare the code against the spec wording for claim C3. -/
def Tick.observe_specModel (b : Nat) : Option Nat :=
  if b % 2 = 1 then none else some (b / 2)

/- Modelled from the spec (section 4.4): has_changed calls observe, fails
with the gone condition when the region is closed, else compares the
version to the cached version. Used only to compare the code against the
spec wording for claim C3. -/
def Watcher.has_changed_specModel {T : Type} (s : SharedMem T) (w : WatcherSt) :
    Option (Bool × WatcherSt) :=
  match Tick.observe_specModel s.tick with
  | none => none
  | some ver => if ver ≠ w.cached then some (true, { cached := ver })
                else some (false, w)

/-- Claim C1, evaluation of the code at the failing input: with a payload of
64 bytes and 40 bytes of lock metadata the spec minimum is 105 bytes, yet a
region of 104 bytes (one byte short) passes the only capacity check in the
crate, because shared.rs compares the region length against the 24 byte
Shared handle struct (independent of the payload and lock sizes), and the
publisher constructor in lib.rs checks nothing at all. -/
theorem C1_undersized_region_passes_checks :
    required_size 40 64 = 105 ∧
    Shared.from_mem_size_check 104 = true ∧
    Watched.new_size_check 104 = true := by decide

/-- Claim C2, counterexample: dropping a Watched over a region whose tick
byte is 4 leaves the byte at 4, so bit 0 (the closed flag) is 0, not 1 as
the claim requires. Watched has no Drop implementation and Tick.close is
never called by lib.rs. -/
theorem C2_drop_leaves_closed_bit_clear :
    (Watched.drop (⟨4, ()⟩ : SharedMem Unit)).tick = 4 ∧
    ¬ (Watched.drop (⟨4, ()⟩ : SharedMem Unit)).tick % 2 = 1 := by decide

/-- Claim C2 as amended: destruction of a Watched performs no Tick
operation at all; the shared tick byte (closed bit and version bits alike)
and the payload are exactly what they were immediately before destruction. -/
theorem C2_drop_preserves_region {T : Type} (s : SharedMem T) :
    (Watched.drop s).tick % 2 = s.tick % 2 ∧
    (Watched.drop s).tick / 2 = s.tick / 2 ∧
    Watched.drop s = s :=
  ⟨rfl, rfl, rfl⟩

/-- Claim C3, counterexample: with the shared tick byte 1 (closed flag set,
version 0), the spec model of has_changed signals the gone condition, but
the code returns an ordinary boolean: true for a watcher with cached byte 0
and false for a watcher with cached byte 1. It never fails. -/
theorem C3_closed_region_returns_plain_bool :
    Tick.try_get 1 = none ∧
    Watcher.has_changed_specModel (⟨1, ()⟩ : SharedMem Unit) ⟨0⟩ = none ∧
    (Watcher.has_changed (⟨1, ()⟩ : SharedMem Unit) ⟨0⟩).1 = true ∧
    (Watcher.has_changed (⟨1, ()⟩ : SharedMem Unit) ⟨1⟩).1 = false := by decide

/-- Claim C3 as amended: when the closed bit of the shared tick byte is set,
has_changed does not signal the gone condition; it still returns the plain
boolean result of comparing the raw shared byte with the cached byte, even
though the spec model reports gone on the same state. -/
theorem C3_has_changed_ignores_closed_flag {T : Type} (s : SharedMem T)
    (w : WatcherSt) (h : s.tick % 2 = 1) :
    (Watcher.has_changed s w).1 = decide (s.tick ≠ w.cached) ∧
    Watcher.has_changed_specModel s w = none := by
  constructor
  · unfold Watcher.has_changed
    by_cases hc : s.tick ≠ w.cached <;> simp [hc]
  · unfold Watcher.has_changed_specModel Tick.observe_specModel
    simp [h]

/-- Witness for claim C3: instantiates the amended theorem at a closed tick
byte 3 and cached byte 1. -/
theorem C3_has_changed_ignores_closed_flag_witness :
    (3 : Nat) % 2 = 1 ∧
    ((Watcher.has_changed (⟨3, ()⟩ : SharedMem Unit) ⟨1⟩).1 = decide ((3 : Nat) ≠ 1) ∧
     Watcher.has_changed_specModel (⟨3, ()⟩ : SharedMem Unit) ⟨1⟩ = none) :=
  ⟨by decide, C3_has_changed_ignores_closed_flag ⟨3, ()⟩ ⟨1⟩ (by decide)⟩

/-- Claim C4, evaluation of the code: the offset added past the Tick by
tick.rs from_ptr is the size of the Tick struct, a reference, hence 8 bytes
on the 64 bit host, while both lib.rs construction paths add the size of
AtomicU8, 1 byte, so the offsets are not identical across the construction
paths and the shared.rs paths do not place the lock metadata at offset 1. -/
theorem C4_tick_offsets_disagree :
    Tick.from_ptr_offset = 8 ∧
    watched_tick_offset = 1 ∧
    watcher_tick_offset = 1 ∧
    Tick.from_ptr_offset ≠ watched_tick_offset := by decide

/-- Claim C5: for every payload value v, after a write of v completes, a
watcher whose cached byte equals the pre-write tick byte sees has_changed
return true, the immediately following read passes the closure exactly the
value of the last completed write (byte identity, since the write stores
the raw bytes of v and read reinterprets the same bytes), and the return
value of read is the return value of the closure. -/
theorem C5_write_then_poll_then_read {T O : Type} (s : SharedMem T) (v : T)
    (f : T → O) (w : WatcherSt) (hsync : w.cached = s.tick) :
    (Watcher.has_changed (Watched.write s v) w).1 = true ∧
    (Watched.write s v).payload = v ∧
    (Watcher.read (Watcher.has_changed (Watched.write s v) w).2.1
       (Watcher.has_changed (Watched.write s v) w).2.2 f).1 = f v := by
  have hne : (Watched.write s v).tick ≠ w.cached := by
    show (s.tick + TICK) % 256 ≠ w.cached
    rw [hsync]
    unfold TICK
    omega
  have h1 : Watcher.has_changed (Watched.write s v) w
      = (true, Watched.write s v, ⟨(Watched.write s v).tick⟩) := by
    unfold Watcher.has_changed
    rw [if_pos hne]
  refine ⟨by rw [h1], rfl, ?_⟩
  rw [h1]
  rfl

/-- Witness for claim C5, the concrete scenario of the spec: a fresh region
holding an 8 byte payload of zeros, the publisher writes eight bytes 123,
an observer attached afterwards polls true and reads exactly eight bytes
123. -/
theorem C5_write_then_poll_then_read_witness :
    (⟨0⟩ : WatcherSt).cached = (⟨0, List.replicate 8 0⟩ : SharedMem (List Nat)).tick ∧
    ((Watcher.has_changed (Watched.write (⟨0, List.replicate 8 0⟩ : SharedMem (List Nat))
        (List.replicate 8 123)) ⟨0⟩).1 = true ∧
     (Watched.write (⟨0, List.replicate 8 0⟩ : SharedMem (List Nat))
        (List.replicate 8 123)).payload = List.replicate 8 123 ∧
     (Watcher.read
        (Watcher.has_changed (Watched.write (⟨0, List.replicate 8 0⟩ : SharedMem (List Nat))
           (List.replicate 8 123)) ⟨0⟩).2.1
        (Watcher.has_changed (Watched.write (⟨0, List.replicate 8 0⟩ : SharedMem (List Nat))
           (List.replicate 8 123)) ⟨0⟩).2.2 (fun x => x)).1 = List.replicate 8 123) :=
  ⟨rfl, C5_write_then_poll_then_read ⟨0, List.replicate 8 0⟩ (List.replicate 8 123)
     (fun x => x) ⟨0⟩ rfl⟩

set_option maxRecDepth 4000 in
/-- Claim C6: for every byte, close fails (the unwrap inside it panics) when
bit 0 is already set, and otherwise stores the byte with bit 0 set while
preserving the version bits 1 to 7, so the closed flag is set by close and
close itself refuses to run on an already closed byte. -/
theorem C6_close_sets_bit_and_rejects_closed : ∀ b : Nat, b < 256 →
    (b % 2 = 1 → Tick.close b = none) ∧
    (b % 2 = 0 → Tick.close b = some (b ||| 1) ∧ (b ||| 1) % 2 = 1 ∧
       (b ||| 1) / 2 = b / 2) := by decide

/-- Witness for claim C6: instantiates the theorem at byte 6 (open, version
3): close returns 7, closed flag set, version still 3. -/
theorem C6_close_sets_bit_and_rejects_closed_witness :
    6 < 256 ∧
    ((6 % 2 = 1 → Tick.close 6 = none) ∧
     (6 % 2 = 0 → Tick.close 6 = some (6 ||| 1) ∧ (6 ||| 1) % 2 = 1 ∧
        (6 ||| 1) / 2 = 6 / 2)) :=
  ⟨by decide, C6_close_sets_bit_and_rejects_closed 6 (by decide)⟩

set_option maxRecDepth 4000 in
/-- Claim C7: for every byte b, tick replaces it with (b + 2) mod 256, the
version field (bits 1 to 7) advances by one unit wrapping modulo 128, and
bit 0 is unchanged by the addition. -/
theorem C7_tick_adds_two_mod_256 : ∀ b : Nat, b < 256 →
    Tick.tick b = (b + 2) % 256 ∧
    Tick.tick b % 2 = b % 2 ∧
    Tick.tick b / 2 = (b / 2 + 1) % 128 := by decide

/-- Witness for claim C7: instantiates the theorem at byte 254 (version
127, open): tick wraps it to 0, version wraps to 0, bit 0 still clear. -/
theorem C7_tick_adds_two_mod_256_witness :
    254 < 256 ∧
    (Tick.tick 254 = (254 + 2) % 256 ∧
     Tick.tick 254 % 2 = 254 % 2 ∧
     Tick.tick 254 / 2 = (254 / 2 + 1) % 128) :=
  ⟨by decide, C7_tick_adds_two_mod_256 254 (by decide)⟩

/-- Claim C8: for every watcher whose cached version differs from the
version of the shared tick byte, has_changed returns true and caches the
shared byte, and an immediately repeated call with no intervening write
returns false; in both calls the shared region is returned unchanged and
only the private cache of the watcher is modified. -/
theorem C8_poll_twice_true_then_false {T : Type} (s : SharedMem T)
    (w : WatcherSt) (hver : w.cached / 2 ≠ s.tick / 2) :
    Watcher.has_changed s w = (true, s, ⟨s.tick⟩) ∧
    Watcher.has_changed s ⟨s.tick⟩ = (false, s, ⟨s.tick⟩) := by
  have hne : s.tick ≠ w.cached := fun he => hver (by rw [he])
  constructor
  · unfold Watcher.has_changed
    rw [if_pos hne]
  · unfold Watcher.has_changed
    rw [if_neg (fun h => h rfl)]

/-- Witness for claim C8: a watcher with cached byte 0 against a shared
tick byte 2 (one write since attachment) polls true then false. -/
theorem C8_poll_twice_true_then_false_witness :
    (0 : Nat) / 2 ≠ (2 : Nat) / 2 ∧
    (Watcher.has_changed (⟨2, ()⟩ : SharedMem Unit) ⟨0⟩ = (true, ⟨2, ()⟩, ⟨2⟩) ∧
     Watcher.has_changed (⟨2, ()⟩ : SharedMem Unit) ⟨2⟩ = (false, ⟨2, ()⟩, ⟨2⟩)) :=
  ⟨by decide, C8_poll_twice_true_then_false ⟨2, ()⟩ ⟨0⟩ (by decide)⟩

/-- Helper for claim C9: the tick byte after n consecutive writes is the
initial byte plus 2n, reduced mod 256. -/
theorem write_iterate_tick {T : Type} (v : T) (s : SharedMem T)
    (hb : s.tick < 256) :
    ∀ n : Nat, ((fun x => Watched.write x v)^[n] s).tick = (s.tick + 2 * n) % 256 := by
  intro n
  induction n with
  | zero => simpa using (Nat.mod_eq_of_lt hb).symm
  | succ k ih =>
      rw [Function.iterate_succ_apply']
      show (((fun x => Watched.write x v)^[k] s).tick + TICK) % 256 = _
      rw [ih]
      unfold TICK
      omega

/-- Claim C9: 128 consecutive writes, each adding 2 to the tick byte mod
256, return the byte to its prior value, so a watcher that was in sync
before the writes polls false afterwards: the intervening changes are
invisible to the version counter. -/
theorem C9_128_writes_wrap_undetected {T : Type} (s : SharedMem T) (v : T)
    (hb : s.tick < 256) :
    ((fun x => Watched.write x v)^[128] s).tick = s.tick ∧
    (Watcher.has_changed ((fun x => Watched.write x v)^[128] s) ⟨s.tick⟩).1 = false := by
  have ht : ((fun x => Watched.write x v)^[128] s).tick = s.tick := by
    rw [write_iterate_tick v s hb 128]
    omega
  refine ⟨ht, ?_⟩
  unfold Watcher.has_changed
  rw [ht]
  simp

/-- Witness for claim C9: from tick byte 6, 128 writes leave the byte at 6
and a watcher that had cached 6 polls false. -/
theorem C9_128_writes_wrap_undetected_witness :
    (⟨6, ()⟩ : SharedMem Unit).tick < 256 ∧
    (((fun x => Watched.write x ())^[128] (⟨6, ()⟩ : SharedMem Unit)).tick
       = (⟨6, ()⟩ : SharedMem Unit).tick ∧
     (Watcher.has_changed ((fun x => Watched.write x ())^[128] (⟨6, ()⟩ : SharedMem Unit))
        ⟨(⟨6, ()⟩ : SharedMem Unit).tick⟩).1 = false) :=
  ⟨by decide, C9_128_writes_wrap_undetected ⟨6, ()⟩ () (by decide)⟩

/-- Claim C10: read leaves both the private cache of the watcher and the
shared region (tick byte and payload) unchanged, returns the closure result
on the payload, and has_changed gives the same answer after a read as
before it. -/
theorem C10_read_is_effect_free {T O : Type} (s : SharedMem T)
    (w : WatcherSt) (f : T → O) :
    Watcher.read s w f = (f s.payload, s, w) ∧
    Watcher.has_changed (Watcher.read s w f).2.1 (Watcher.read s w f).2.2
      = Watcher.has_changed s w :=
  ⟨rfl, rfl⟩

end IpcWatcher
